import Mathlib

/-!
Verification of the input-event dispatcher of `ui.cpp`
(android_bootable_recovery-cm).

Shallow embedding: each relevant C++ function is translated to a pure Lean
function over an explicit state; threads and locks are abstracted away by
modelling the body of each critical section as one atomic step (every
claim below concerns the state transformation a single call performs, not
interleavings).  Machine integers are modelled as `Int`/`Nat`; the sizes
involved (key codes ≤ 767, queue lengths ≤ 257, counters < 2^31) never
reach overflow, so no `% 2^w` reduction is needed.
-/

namespace RecoveryUI

/-! ## Linux input constants (from `linux/input.h`, used by `ui.cpp`) -/

def EV_SYN : ℕ := 0
def EV_KEY : ℕ := 1
def EV_REL : ℕ := 2
def EV_ABS : ℕ := 3
def REL_Y : ℕ := 1
def SYN_MT_REPORT : ℕ := 2
def KEY_UP : ℕ := 103
def KEY_DOWN : ℕ := 108
def KEY_VOLUMEDOWN : ℕ := 114
def KEY_VOLUMEUP : ℕ := 115
def KEY_POWER : ℕ := 116
def KEY_BACK : ℕ := 158
def BTN_TOUCH : ℕ := 330
def KEY_MAX : ℕ := 0x2ff

def UI_WAIT_KEY_TIMEOUT_SEC : ℤ := 120

/-! ## Key pipeline state (`RecoveryUI::process_key`, ui.cpp:212-265)

`key_pressed` is a `KEY_MAX+1`-sized int array in the C++; we model the
writes `key_pressed[key_code] = updown` as an association list whose most
recent binding for a code is the current value.  `key_last_down : ℤ` is
`-1` when no key is the most recent depressed key. -/

structure KeyPipeState where
  key_pressed : List (ℕ × Bool)
  key_last_down : ℤ
  key_long_press : Bool
  key_down_count : ℕ
  deriving Repr, DecidableEq

/-- Initial values from the `RecoveryUI` constructor (ui.cpp:126-145). -/
def initKeyPipe : KeyPipeState :=
  { key_pressed := [], key_last_down := -1, key_long_press := false,
    key_down_count := 0 }

/-- The locked section of `RecoveryUI::process_key` (ui.cpp:216-236):
writes `key_pressed[key_code] = updown`; on a down edge increments
`key_down_count`, records `key_last_down = key_code` and clears
`key_long_press`; on an up edge sets `register_key` exactly when
`key_last_down == key_code`, then resets `key_last_down` to `-1`.
Returns the new state, whether the key is registered, and the
`long_press` flag captured for `NextCheckKeyIsLong`. -/
def process_key (st : KeyPipeState) (key_code : ℕ) (updown : Bool) :
    KeyPipeState × Bool × Bool :=
  let st0 := { st with key_pressed := (key_code, updown) :: st.key_pressed }
  if updown then
    ({ st0 with key_down_count := st0.key_down_count + 1,
                key_last_down := (key_code : ℤ),
                key_long_press := false }, false, false)
  else
    let register_key := st0.key_last_down = (key_code : ℤ)
    (({ st0 with key_last_down := -1 } : KeyPipeState),
     decide register_key, st0.key_long_press)

/-- Run a sequence of `(code, updown)` events through `process_key`,
collecting the codes that get registered, in order. -/
def registeredKeys (st : KeyPipeState) : List (ℕ × Bool) → List ℕ
  | [] => []
  | (c, d) :: evs =>
      let r := process_key st c d
      if r.2.1 then c :: registeredKeys r.1 evs else registeredKeys r.1 evs

/-! ## Key queue (`EnqueueKey`, `CancelWaitKey`, `WaitKey`, `FlushKeys`,
ui.cpp:369-439, 468-472)

The queue is the prefix `key_queue[0 .. key_queue_len)` of a fixed-size
int array; we model that prefix as a `List ℤ` (so `key_queue_len` is the
list's length).  `CANCEL` is the sentinel `-2` pushed by
`CancelWaitKey`. -/

/-- Modelled from the spec: the `key_queue` array and its size are declared
in `ui.h`, which is not part of `src/`; the spec fixes the capacity at
build time with "≥ 256 sufficient", so we take 256.  `EnqueueKey` computes
this bound as `sizeof(key_queue) / sizeof(key_queue[0])`. -/
def queue_capacity : ℕ := 256

/-- State of the dialog collaborator as seen through `DialogShowing()` /
`DialogDismissable()` (external renderer; only these two queries are read
by `EnqueueKey`). -/
structure DialogState where
  showing : Bool
  dismissable : Bool
  deriving Repr, DecidableEq

/-- Outcome of one `EnqueueKey` call: the new queue contents, whether
`pthread_cond_signal` was issued, and whether `DialogDismiss()` was
called. -/
structure EnqueueResult where
  key_queue : List ℤ
  signaled : Bool
  dismissed : Bool
  deriving Repr, DecidableEq

/-- `RecoveryUI::EnqueueKey` (ui.cpp:369-383): if a dialog is showing,
dismiss it when dismissable and return without touching the queue;
otherwise push the code and signal only when `key_queue_len <
queue_max`, else drop silently.  The C function does a bounded amount of
work under the lock and never waits on the condition variable, which is
why it is a total function here. -/
def EnqueueKey (dialog : DialogState) (q : List ℤ) (key_code : ℤ) :
    EnqueueResult :=
  if dialog.showing then
    { key_queue := q, signaled := false, dismissed := dialog.dismissable }
  else if q.length < queue_capacity then
    { key_queue := q ++ [key_code], signaled := true, dismissed := false }
  else
    { key_queue := q, signaled := false, dismissed := false }

/-- `RecoveryUI::CancelWaitKey` (ui.cpp:396-403): writes
`key_queue[key_queue_len] = -2` and increments `key_queue_len`,
unconditionally — there is no capacity check, so with a full queue this
writes one past the end of the array and makes the length exceed the
capacity. -/
def CancelWaitKey (q : List ℤ) : List ℤ := q ++ [-2]

/-- The dequeue step at the end of `RecoveryUI::WaitKey` (ui.cpp:432-436):
pop the head if the queue is nonempty, else return `-1`. -/
def WaitKeyDequeue (q : List ℤ) : ℤ × List ℤ :=
  if 0 < q.length then (q.headI, q.tail) else (-1, q)

/-- `RecoveryUI::FlushKeys` (ui.cpp:468-472): sets `key_queue_len = 0`. -/
def FlushKeys (_q : List ℤ) : List ℤ := []

/-! ## The `WaitKey` timeout loop (ui.cpp:405-439)

`WaitKey` runs `do { ...1-second wait...; timeouts--; } while ((timeouts ||
usb_connected()) && key_queue_len == 0);` starting from `timeouts = 120`.
Under the claims' assumption that the queue stays empty (and no volume
change occurs, which would return `kRefresh` early), the loop's fate is
decided purely by the condition.  At the k-th evaluation of the condition
(k = 1, 2, ...) the C variable `timeouts` holds `120 - k` — it keeps
decrementing past zero into negative values.  C truthiness makes any
nonzero `timeouts` true, and `||` short-circuits, so `usb_connected()` is
evaluated only when `120 - k = 0`, i.e. only at k = 120. -/

/-- The loop condition of `WaitKey` at its k-th evaluation, with the queue
empty: `timeouts || usb_connected()` where `timeouts = 120 - k` under C
truthiness (nonzero = true).  `usb k` is the value `usb_connected()`
would return at second k. -/
def waitContinue (usb : ℕ → Bool) (k : ℕ) : Bool :=
  decide (UI_WAIT_KEY_TIMEOUT_SEC - (k : ℤ) ≠ 0) || usb k

/-- `WaitKey` (with the queue perpetually empty and no volume change)
eventually stops waiting and returns iff its do-while condition fails at
some evaluation. -/
def waitKeyReturns (usb : ℕ → Bool) : Prop :=
  ∃ k, 1 ≤ k ∧ waitContinue usb k = false

/-- A cable history that is connected exactly at second 120 (the single
instant `WaitKey` actually probes) and disconnected at every other
second. -/
def usbOnlyAt120 : ℕ → Bool := fun k => decide (k = 120)

/-! ## `input_callback` (ui.cpp:160-198)

After `process_swipe`, the callback returns early on `EV_SYN`; on
`EV_REL`/`REL_Y` it accumulates `rel_sum` and synthesises a press+release
of `KEY_DOWN`/`KEY_UP` when the sum leaves `[-3, 3]`, resetting the sum;
on any other type it resets `rel_sum` to 0.  Finally an `EV_KEY` event
with `code <= KEY_MAX` is forwarded to `process_key(code, value)`. -/

/-- One kernel input event: `(type, code, value)` (`type` and `code` are
`__u16`, hence `ℕ`; `value` is a signed 32-bit int, hence `ℤ`). -/
structure InputEvent where
  type : ℕ
  code : ℕ
  value : ℤ
  deriving Repr, DecidableEq

/-- `RecoveryUI::input_callback` (ui.cpp:160-198), minus the
`process_swipe` call (modelled separately): returns the new `rel_sum` and
the list of `process_key(code, updown)` invocations made, in order. -/
def input_callback (ev : InputEvent) (rel_sum : ℤ) : ℤ × List (ℕ × ℤ) :=
  if ev.type = EV_SYN then (rel_sum, [])
  else
    let relPart : ℤ × List (ℕ × ℤ) :=
      if ev.type = EV_REL then
        if ev.code = REL_Y then
          let s := rel_sum + ev.value
          if 3 < s then (0, [(KEY_DOWN, 1), (KEY_DOWN, 0)])
          else if s < -3 then (0, [(KEY_UP, 1), (KEY_UP, 0)])
          else (s, [])
        else (rel_sum, [])
      else (0, [])
    if ev.type = EV_KEY ∧ ev.code ≤ KEY_MAX then
      (relPart.1, relPart.2 ++ [(ev.code, ev.value)])
    else relPart

/-! ## The `BTN_TOUCH` branch of `process_swipe` (ui.cpp:315-322)

Note the C code compares the event *value* with the key *codes*
`KEY_DOWN` (108) and `KEY_UP` (103), not with the `BTN_TOUCH` values
1 (touch pressed) / 0 (touch released). -/

/-- The `EV_KEY && code == BTN_TOUCH` branch of
`RecoveryUI::process_swipe`: `mt_count++` when `value == KEY_DOWN`, else
`mt_count--` when `mt_count > 0 && value == KEY_UP`; afterwards, if
`mt_count == 0`, `reset_gestures()` is called.  Returns the new
`mt_count` and whether the accumulators were reset. -/
def process_swipe_touch (mt_count : ℕ) (value : ℤ) : ℕ × Bool :=
  let c :=
    if value = (KEY_DOWN : ℤ) then mt_count + 1
    else if 0 < mt_count ∧ value = (KEY_UP : ℤ) then mt_count - 1
    else mt_count
  (c, decide (c = 0))

/-! ## `string_split` and the control-socket dispatcher (ui.cpp:53-112) -/

/-- `strchr(s, ' ')` plus the cut `*p = 0; s = p + 1`: the text before
the first space and the text after it, or `none` when `s` has no
space. -/
def splitFirstSpace : List Char → Option (List Char × List Char)
  | [] => none
  | c :: rest =>
      if c = ' ' then some ([], rest)
      else
        match splitFirstSpace rest with
        | none => none
        | some (a, b) => some (c :: a, b)

/-- The loop of `string_split` (ui.cpp:56-64), with `fuel` the number of
cuts still allowed: the loop guard `n + 1 < maxfields` admits at most
`maxfields - 1` cuts, and the final remainder (spaces intact) becomes the
last field (ui.cpp:65). -/
def string_split_go (s : List Char) : ℕ → List (List Char)
  | 0 => [s]
  | fuel + 1 =>
      match splitFirstSpace s with
      | none => [s]
      | some (f, rest) => f :: string_split_go rest fuel

/-- `string_split` (ui.cpp:53-68): cut at the first space while fewer
than `maxfields - 1` fields have been produced; the remainder is the last
field.  The C function returns `n + 1`, the length of this list. -/
def string_split (s : List Char) (maxfields : ℕ) : List (List Char) :=
  string_split_go s (maxfields - 1)

/-- A dialog call made by the control-socket dispatcher. -/
inductive DialogCall where
  | ShowInfo (text : List Char)
  | Dismiss
  deriving Repr, DecidableEq

/-- The parse-and-dispatch part of `message_socket_client_event`
(ui.cpp:95-109): split the buffer into at most 3 fields; with fewer than
2 fields do nothing; when `fields[0] == "dialog"`, call
`DialogShowInfo(fields[2])` if `fields[1] == "show" && nfields > 2`, and
`DialogDismiss()` if `fields[1] == "dismiss"`.  Returns the dialog calls
made, in order.  (A trailing newline, if present in the buffer, is never
stripped and simply stays attached to the last field.) -/
def message_socket_client_event (buf : List Char) : List DialogCall :=
  let fields := string_split buf 3
  let nfields := fields.length
  if nfields < 2 then []
  else if fields[0]! = ("dialog").toList then
    (if fields[1]! = ("show").toList ∧ 2 < nfields then
        [DialogCall.ShowInfo fields[2]!]
      else []) ++
    (if fields[1]! = ("dismiss").toList then [DialogCall.Dismiss] else [])
  else []

/-! ## The default policy `CheckKey` (ui.cpp:480-509) -/

/-- Result of `CheckKey` (the `KeyAction` enum of `ui.h`, as used in
ui.cpp:240-262). -/
inductive KeyAction where
  | IGNORE
  | TOGGLE
  | REBOOT
  | ENQUEUE
  | MOUNT_SYSTEM
  deriving Repr, DecidableEq

/-- The policy-state fields of `RecoveryUI` read and written by
`CheckKey` (initial values from the constructor, ui.cpp:131-133). -/
structure PolicyState where
  consecutive_power_keys : ℕ
  consecutive_alternate_keys : ℕ
  last_key : ℤ
  deriving Repr, DecidableEq

/-- Constructor values (ui.cpp:131-133). -/
def initPolicy : PolicyState :=
  { consecutive_power_keys := 0, consecutive_alternate_keys := 0,
    last_key := -1 }

/-- `RecoveryUI::CheckKey` (ui.cpp:480-509).  `power_pressed` is
`IsKeyPressed(KEY_POWER)`.  The `TOGGLE`, `REBOOT` and `MOUNT_SYSTEM`
paths return early, before the trailing `last_key = key;`; the
`MOUNT_SYSTEM` path zeroes the alternate counter first.  Returns the
action and the updated policy state. -/
def CheckKey (power_pressed : Bool) (key : ℤ) (st : PolicyState) :
    KeyAction × PolicyState :=
  if power_pressed = true ∧ key = (KEY_VOLUMEUP : ℤ) then (.TOGGLE, st)
  else
    let st1 :=
      if key = (KEY_POWER : ℤ) then
        { st with consecutive_power_keys := st.consecutive_power_keys + 1 }
      else { st with consecutive_power_keys := 0 }
    if key = (KEY_POWER : ℤ) ∧ 7 ≤ st1.consecutive_power_keys then
      (.REBOOT, st1)
    else
      let alternating :=
        (key = (KEY_VOLUMEUP : ℤ) ∧
          (st1.last_key = (KEY_VOLUMEDOWN : ℤ) ∨ st1.last_key = -1)) ∨
        (key = (KEY_VOLUMEDOWN : ℤ) ∧
          (st1.last_key = (KEY_VOLUMEUP : ℤ) ∨ st1.last_key = -1))
      let st2 :=
        if alternating then
          { st1 with consecutive_alternate_keys :=
              st1.consecutive_alternate_keys + 1 }
        else { st1 with consecutive_alternate_keys := 0 }
      if alternating ∧ 7 ≤ st2.consecutive_alternate_keys then
        (.MOUNT_SYSTEM, { st2 with consecutive_alternate_keys := 0 })
      else (.ENQUEUE, { st2 with last_key := key })

/-! ## Swipe thresholds (`set_min_swipe_lengths`, ui.cpp:285-293)

`min_x_swipe_px = (int)(0.5 * screen_density)`: `0.5 * d` is exact in
IEEE-754 double for any `int` density, and the C cast truncates toward
zero, so for positive `d` this is `d / 2` in `ℕ`.
`min_y_swipe_px = (int)(0.3 * screen_density)`: the literal `0.3` is the
double `5404319552844595 / 2^54`; the multiplication rounds the exact
product to the nearest double (53 significant bits, ties to even) and the
cast then truncates. -/

/-- Significand of the IEEE-754 double nearest 0.3: that double is
`5404319552844595 / 2 ^ 54`. -/
def double_0_3_sig : ℕ := 5404319552844595

/-- Binary length of a natural number, with explicit fuel so that the
kernel can evaluate it (`bitLenGo fuel m` is the bit length of `m`
whenever `m < 2 ^ fuel`). -/
def bitLenGo : ℕ → ℕ → ℕ
  | 0, _ => 0
  | fuel + 1, m => if m = 0 then 0 else bitLenGo fuel (m / 2) + 1

/-- Bit length, sufficient for any product `double_0_3_sig * d` with `d`
a 32-bit density (such products are far below `2 ^ 128`). -/
def bitLen (m : ℕ) : ℕ := bitLenGo 128 m

/-- Round a positive integer to 53 significant bits (round to nearest,
ties to even), keeping its magnitude: the rounding the hardware performs
on the product's significand.  Exact when the integer already fits in 53
bits. -/
def roundSig53 (m : ℕ) : ℕ :=
  let s := bitLen m - 53
  if s = 0 then m
  else
    let q := m / 2 ^ s
    let r := m % 2 ^ s
    let half := 2 ^ (s - 1)
    if r < half then q * 2 ^ s
    else if half < r then (q + 1) * 2 ^ s
    else if q % 2 = 0 then q * 2 ^ s
    else (q + 1) * 2 ^ s

/-- `(int)(0.3 * d)` for nonnegative `d`: the exact product
`double(0.3) * d = (double_0_3_sig * d) / 2 ^ 54` is rounded to the
nearest double by the multiplication, then truncated toward zero by the
cast. -/
def trunc_0_3_mul (d : ℕ) : ℕ :=
  roundSig53 (double_0_3_sig * d) / 2 ^ 54

/-- The two threshold fields of `RecoveryUI`. -/
structure SwipeLengths where
  min_x_swipe_px : ℕ
  min_y_swipe_px : ℕ
  deriving Repr, DecidableEq

/-- Constructor defaults (ui.cpp:141-142). -/
def initSwipeLengths : SwipeLengths :=
  { min_x_swipe_px := 100, min_y_swipe_px := 80 }

/-- `RecoveryUI::set_min_swipe_lengths` (ui.cpp:285-293).
`screen_density` is `atoi` of property `ro.sf.lcd_density` (default
string `"0"`, so 0 when the property is missing).  Only a strictly
positive density overwrites the thresholds. -/
def set_min_swipe_lengths (screen_density : ℤ) (st : SwipeLengths) :
    SwipeLengths :=
  if 0 < screen_density then
    { min_x_swipe_px := screen_density.toNat / 2,
      min_y_swipe_px := trunc_0_3_mul screen_density.toNat }
  else st

end RecoveryUI

open RecoveryUI

/-- **C1, counterexample.**  The chord 10 down, 20 down, 20 up, 10 up
does not register only key 10: the registered list is `[20]`, not `[10]`,
contrary to the claim that only A (= 10) is registered. -/
theorem c1_counterexample :
    registeredKeys initKeyPipe [(10, true), (20, true), (20, false), (10, false)]
      ≠ [10] := by
  decide

/-- **C1, amended.**  A key is registered at its up edge iff
`key_last_down` equals that key's code at that moment; consequently, for
the chord A down, B down, B up, A up (A ≠ B), only key **B** — the key
whose down edge was most recent, released first — is registered. -/
theorem c1_register_iff_last_down (a b : ℕ) (hab : a ≠ b) :
    (∀ (st : KeyPipeState) (code : ℕ),
        (process_key st code false).2.1 = true ↔ st.key_last_down = (code : ℤ)) ∧
    registeredKeys initKeyPipe [(a, true), (b, true), (b, false), (a, false)]
      = [b] := by
  constructor
  · intro st code
    simp [process_key]
  · have hba : ((b : ℤ)) ≠ (a : ℤ) := by exact_mod_cast (Ne.symm hab)
    simp [registeredKeys, process_key, initKeyPipe, hba]

/-- **C1, witness** for the amended theorem at A = 10, B = 20. -/
theorem c1_witness :
    registeredKeys initKeyPipe [(10, true), (20, true), (20, false), (10, false)]
      = [20] :=
  (c1_register_iff_last_down 10 20 (by decide)).2

/-- **C2, code evaluated at the failing input.**  With the queue already
full (length = capacity = 256), `CancelWaitKey` still appends its `-2`
sentinel and grows the length to 257 > 256: the bounded-FIFO invariant
`key_queue_len ≤ capacity` is violated (in the C code this is an
out-of-bounds write to `key_queue[256]`).  Enqueue, dequeue and flush do
preserve the bound; the unchecked `CancelWaitKey` is the slip. -/
theorem c2_cancel_overflows_full_queue :
    (CancelWaitKey (List.replicate queue_capacity 0)).length = queue_capacity + 1 ∧
    ¬ (CancelWaitKey (List.replicate queue_capacity 0)).length ≤ queue_capacity := by
  have h : (CancelWaitKey (List.replicate queue_capacity 0)).length
      = queue_capacity + 1 := by
    simp [CancelWaitKey]
  exact ⟨h, by omega⟩

/-- **C9.**  `EnqueueKey` never blocks and: with no dialog showing and the
queue full, the code is dropped silently (queue unchanged, no signal);
with a dialog showing, the queue is unchanged, no signal is sent, the key
is never pushed, and `DialogDismiss()` is called exactly when the dialog
is dismissable. -/
theorem c9_enqueue_drop_semantics (dialog : DialogState) (q : List ℤ) (code : ℤ) :
    (dialog.showing = false → queue_capacity ≤ q.length →
        (EnqueueKey dialog q code).key_queue = q ∧
        (EnqueueKey dialog q code).signaled = false) ∧
    (dialog.showing = true →
        (EnqueueKey dialog q code).key_queue = q ∧
        (EnqueueKey dialog q code).signaled = false ∧
        (EnqueueKey dialog q code).dismissed = dialog.dismissable) := by
  constructor
  · intro hshow hfull
    have : ¬ q.length < queue_capacity := by omega
    simp [EnqueueKey, hshow, this]
  · intro hshow
    simp [EnqueueKey, hshow]

/-- **C9, witness**: the full-queue case at a concrete full queue, and the
dialog case at a concrete showing-dismissable dialog. -/
theorem c9_witness :
    ((EnqueueKey ⟨false, false⟩ (List.replicate 256 0) 5).key_queue
        = List.replicate 256 0 ∧
      (EnqueueKey ⟨false, false⟩ (List.replicate 256 0) 5).signaled = false) ∧
    ((EnqueueKey ⟨true, true⟩ [] 5).key_queue = [] ∧
      (EnqueueKey ⟨true, true⟩ [] 5).signaled = false ∧
      (EnqueueKey ⟨true, true⟩ [] 5).dismissed = true) :=
  ⟨(c9_enqueue_drop_semantics ⟨false, false⟩ (List.replicate 256 0) 5).1 rfl
      (by rw [List.length_replicate]; exact Nat.le_refl 256),
   (c9_enqueue_drop_semantics ⟨true, true⟩ [] 5).2 rfl⟩

/-- **C3, counterexample.**  With the queue perpetually empty, take the
cable history that is connected at second 120 and disconnected at every
other second.  The cable is disconnected at second 121 — a per-second
instant after the 120 slices have elapsed — yet `WaitKey` never stops
waiting: for k ≠ 120 the decremented counter `120 - k` is nonzero (for
k > 120 it is *negative*, which C treats as true) so the cable is not
even probed, and at k = 120 the cable was connected. -/
theorem c3_counterexample :
    (120 < 121 ∧ usbOnlyAt120 121 = false) ∧ ¬ waitKeyReturns usbOnlyAt120 := by
  refine ⟨⟨by norm_num, by decide⟩, ?_⟩
  rintro ⟨k, -, hk⟩
  by_cases h : k = 120
  · subst h
    simp [waitContinue, usbOnlyAt120] at hk
  · have hne : UI_WAIT_KEY_TIMEOUT_SEC - (k : ℤ) ≠ 0 := by
      simp only [UI_WAIT_KEY_TIMEOUT_SEC]
      omega
    simp [waitContinue, hne] at hk

/-- **C3, amended.**  With the queue perpetually empty, `WaitKey` probes
the USB cable exactly once, at the condition evaluation where the
decremented counter reaches 0 (second 120): it stops waiting and returns
iff the cable is observed disconnected at that single probe.  If the
cable is connected then, the wait is extended forever, because from then
on the counter is negative — nonzero, hence true in C — and the cable is
never re-checked. -/
theorem c3_returns_iff_disconnected_at_120 (usb : ℕ → Bool) :
    waitKeyReturns usb ↔ usb 120 = false := by
  constructor
  · rintro ⟨k, -, hk⟩
    by_cases h : k = 120
    · subst h
      simpa [waitContinue, UI_WAIT_KEY_TIMEOUT_SEC] using hk
    · exfalso
      have hne : UI_WAIT_KEY_TIMEOUT_SEC - (k : ℤ) ≠ 0 := by
        simp only [UI_WAIT_KEY_TIMEOUT_SEC]
        omega
      simp [waitContinue, hne] at hk
  · intro h
    exact ⟨120, by norm_num, by simp [waitContinue, UI_WAIT_KEY_TIMEOUT_SEC, h]⟩

/-- **C3, witness**: with a never-connected cable the wait does return. -/
theorem c3_witness : waitKeyReturns (fun _ => false) :=
  (c3_returns_iff_disconnected_at_120 (fun _ => false)).mpr rfl

/-- **C4, counterexample.**  On the line `dialog show Hello world` the
dispatcher does not call `ShowInfo("world")`: with `maxfields = 3` the
tokeniser stops cutting after two fields, so nothing is lost and the call
is `ShowInfo("Hello world")`. -/
theorem c4_counterexample :
    message_socket_client_event (("dialog show Hello world").toList)
      ≠ [DialogCall.ShowInfo (("world").toList)] := by
  decide

/-- **C4, amended.**  `string_split` with `maxfields = 3` cuts at the
first space at most twice and keeps the whole remainder — spaces intact —
as the last field: `dialog show Hello world` yields the fields
`{"dialog", "show", "Hello world"}` (`nfields = 3`), and the dispatcher
calls `ShowInfo("Hello world")`; the text `Hello` is not lost. -/
theorem c4_split_keeps_remainder :
    string_split (("dialog show Hello world").toList) 3
      = [("dialog").toList, ("show").toList, ("Hello world").toList] ∧
    message_socket_client_event (("dialog show Hello world").toList)
      = [DialogCall.ShowInfo (("Hello world").toList)] := by
  decide

/-- **C5, code evaluated at the failing input.**  `process_swipe`
compares the `BTN_TOUCH` event *value* against the key *codes*
`KEY_DOWN = 108` / `KEY_UP = 103` instead of the touch values 1 / 0: a
touch press (`value = 1`) leaves `contacts` at 0 (and, `contacts` being
0, resets the gesture accumulators) instead of incrementing it; a touch
release (`value = 0`) from `contacts = 1` fails to decrement; only the
impossible values 108 / 103 move the counter. -/
theorem c5_btn_touch_compares_key_codes :
    process_swipe_touch 0 1 = (0, true) ∧
    process_swipe_touch 1 0 = (1, false) ∧
    process_swipe_touch 0 (KEY_DOWN : ℤ) = (1, false) ∧
    process_swipe_touch 1 (KEY_UP : ℤ) = (0, true) := by
  decide

/-- **C6, counterexample.**  An `EV_SYN` event does not reset the
trackball accumulator: `input_callback` returns from the `EV_SYN` branch
before reaching the `else` that zeroes `rel_sum`, so a sum of 2 survives
an `EV_SYN` event, contrary to the claim that any non-`EV_REL` event —
including `EV_SYN` — resets it. -/
theorem c6_counterexample :
    (input_callback { type := EV_SYN, code := 0, value := 0 } 2).1 = 2 ∧
    (2 : ℤ) ≠ 0 := by
  decide

/-- **C6, amended.**  The trackball accumulator is reset to zero by any
event whose type is neither `EV_REL` nor `EV_SYN`; an `EV_SYN` event
leaves it unchanged (the callback returns early); and it is reset after
emitting a synthetic up/down key when the sum leaves `[-3, 3]`. -/
theorem c6_relsum_reset (ev : InputEvent) (s : ℤ) :
    (ev.type ≠ EV_REL → ev.type ≠ EV_SYN → (input_callback ev s).1 = 0) ∧
    (ev.type = EV_SYN → (input_callback ev s).1 = s) ∧
    (ev.type = EV_REL → ev.code = REL_Y →
      (3 < s + ev.value ∨ s + ev.value < -3) → (input_callback ev s).1 = 0) := by
  refine ⟨?_, ?_, ?_⟩
  · intro h1 h2
    simp only [input_callback, if_neg h2, if_neg h1]
    split_ifs <;> rfl
  · intro h
    simp [input_callback, h]
  · intro hrel hcode hcross
    have hsyn : ev.type ≠ EV_SYN := by rw [hrel]; decide
    have hkey : ¬ (ev.type = EV_KEY ∧ ev.code ≤ KEY_MAX) := by
      rw [hrel]
      simp [EV_REL, EV_KEY]
    rcases hcross with h | h
    · simp [input_callback, hrel, hcode, hsyn, hkey, h,
        EV_SYN, EV_KEY, EV_REL, REL_Y, KEY_MAX]
    · have h2 : ¬ (3 < s + ev.value) := by omega
      simp [input_callback, hrel, hcode, hsyn, hkey, h, h2,
        EV_SYN, EV_KEY, EV_REL, REL_Y, KEY_MAX]

/-- **C6, witness**: an `EV_ABS` event resets a sum of 7; an `EV_SYN`
event keeps it; a `REL_Y` delta pushing the sum to 4 emits and resets. -/
theorem c6_witness :
    (input_callback { type := EV_ABS, code := 0, value := 0 } 7).1 = 0 ∧
    (input_callback { type := EV_SYN, code := 0, value := 0 } 7).1 = 7 ∧
    (input_callback { type := EV_REL, code := REL_Y, value := 4 } 0).1 = 0 :=
  ⟨(c6_relsum_reset { type := EV_ABS, code := 0, value := 0 } 7).1
      (by decide) (by decide),
   (c6_relsum_reset { type := EV_SYN, code := 0, value := 0 } 7).2.1 rfl,
   (c6_relsum_reset { type := EV_REL, code := REL_Y, value := 4 } 0).2.2
      rfl rfl (Or.inl (by decide))⟩

/-- **C7, counterexample.**  `CheckKey` does not update `last_key` on the
`TOGGLE` path: with power held and a registered volume-up from the
initial state, it returns `TOGGLE` early and `last_key` stays `-1`
instead of becoming `KEY_VOLUMEUP`. -/
theorem c7_counterexample :
    (CheckKey true (KEY_VOLUMEUP : ℤ) initPolicy).1 = KeyAction.TOGGLE ∧
    (CheckKey true (KEY_VOLUMEUP : ℤ) initPolicy).2.last_key
      ≠ (KEY_VOLUMEUP : ℤ) := by
  decide

/-- **C7, amended.**  `CheckKey` updates `last_key` to the registered key
exactly on the `ENQUEUE` fall-through path; the `TOGGLE`, `REBOOT` and
`MOUNT_SYSTEM` paths return before the trailing `last_key = key;`, so
there `last_key` keeps its previous value. -/
theorem c7_last_key_only_on_enqueue (power_pressed : Bool) (key : ℤ)
    (st : PolicyState) :
    ((CheckKey power_pressed key st).1 = KeyAction.ENQUEUE →
        (CheckKey power_pressed key st).2.last_key = key) ∧
    ((CheckKey power_pressed key st).1 ≠ KeyAction.ENQUEUE →
        (CheckKey power_pressed key st).2.last_key = st.last_key) := by
  unfold CheckKey
  split_ifs <;> simp_all <;> split_ifs <;> simp_all

/-- **C7, witness**: a plain key (code 5) takes the `ENQUEUE` path and
sets `last_key = 5`; the `TOGGLE` case keeps `last_key = -1`. -/
theorem c7_witness :
    (CheckKey false 5 initPolicy).2.last_key = 5 ∧
    (CheckKey true (KEY_VOLUMEUP : ℤ) initPolicy).2.last_key
      = initPolicy.last_key :=
  ⟨(c7_last_key_only_on_enqueue false 5 initPolicy).1 (by decide),
   (c7_last_key_only_on_enqueue true (KEY_VOLUMEUP : ℤ) initPolicy).2
      (by decide)⟩

/-- **C8, counterexample.**  At density 243 the code sets
`min_x_swipe_px = (int)(0.5 * 243) = 121` — the cast truncates — while
the claimed `round(0.5 * 243) = round(121.5) = 122`. -/
theorem c8_counterexample :
    ((set_min_swipe_lengths 243 initSwipeLengths).min_x_swipe_px : ℤ)
      ≠ round ((1 / 2 : ℚ) * 243) := by
  have h1 : (set_min_swipe_lengths 243 initSwipeLengths).min_x_swipe_px
      = 121 := by decide
  have h2 : round ((1 / 2 : ℚ) * 243) = 122 := by
    rw [round_eq]
    norm_num
  rw [h1, h2]
  decide

/-- **C8, amended.**  With a positive density `d` the thresholds are
*truncated*, not rounded: `min_x_swipe_px = ⌊0.5 * d⌋` (exact, since
`0.5 * d` is exactly representable) and `min_y_swipe_px` is the
truncation of the IEEE-754 double product `double(0.3) * d`; a missing,
zero or negative density keeps the current (default 100 / 80)
thresholds. -/
theorem c8_trunc_thresholds (d : ℤ) (st : SwipeLengths) :
    (0 < d →
        (set_min_swipe_lengths d st).min_x_swipe_px = ⌊(d : ℚ) / 2⌋₊ ∧
        (set_min_swipe_lengths d st).min_y_swipe_px
          = trunc_0_3_mul d.toNat) ∧
    (d ≤ 0 → set_min_swipe_lengths d st = st) := by
  constructor
  · intro hd
    have hn : ((d.toNat : ℤ)) = d := Int.toNat_of_nonneg hd.le
    have hcast : ((d.toNat : ℕ) : ℚ) = (d : ℚ) := by exact_mod_cast hn
    unfold set_min_swipe_lengths
    rw [if_pos hd]
    refine ⟨?_, rfl⟩
    have hfl : ⌊((d.toNat : ℕ) : ℚ) / ((2 : ℕ) : ℚ)⌋₊ = d.toNat / 2 :=
      Nat.floor_div_eq_div (d.toNat) 2
    rw [← hcast]
    push_cast at hfl ⊢
    exact hfl.symm
  · intro hd
    unfold set_min_swipe_lengths
    rw [if_neg (by omega)]

/-- **C8, witness**: the amended theorem at density 243 (truncated
thresholds) and at density 0 (defaults kept). -/
theorem c8_witness :
    ((set_min_swipe_lengths 243 initSwipeLengths).min_x_swipe_px
        = ⌊((243 : ℤ) : ℚ) / 2⌋₊ ∧
      (set_min_swipe_lengths 243 initSwipeLengths).min_y_swipe_px
        = trunc_0_3_mul (243 : ℤ).toNat) ∧
    set_min_swipe_lengths 0 initSwipeLengths = initSwipeLengths :=
  ⟨(c8_trunc_thresholds 243 initSwipeLengths).1 (by norm_num),
   (c8_trunc_thresholds 0 initSwipeLengths).2 le_rfl⟩

/-- **C10.**  Every `process_key` invocation made by `input_callback`
stays within the `key_pressed` index range: a forwarded `EV_KEY` code is
guarded by `code <= KEY_MAX`, and the only other invocations are the
trackball-synthesised `KEY_DOWN` / `KEY_UP`, both far below `KEY_MAX`
(event codes are unsigned, so the lower bound 0 is automatic). -/
theorem c10_forwarded_codes_in_range (ev : InputEvent) (s : ℤ) (c : ℕ)
    (u : ℤ) :
    (c, u) ∈ (input_callback ev s).2 → c ≤ KEY_MAX := by
  intro hmem
  simp only [input_callback] at hmem
  split_ifs at hmem <;>
    simp_all [KEY_MAX, KEY_DOWN, KEY_UP] <;>
    omega

/-- **C10, witness**: the forwarded code of a concrete `EV_KEY` event
(code 500) is within range. -/
theorem c10_witness : (500 : ℕ) ≤ KEY_MAX :=
  c10_forwarded_codes_in_range { type := EV_KEY, code := 500, value := 1 } 0
    500 1 (by decide)
